import Mathlib

/-!
Shallow embedding of `src/slackclient_log_handler/__init__.py`.

The module defines a logging handler that posts log records to Slack.
We model the Python objects involved (log records, exception info, the
handler state) and translate the module-level constants and the methods
`__init__` (channel normalization, icon selection, ping-user resolution),
`build_msg`, `build_trace` and `emit` into Lean functions.

Python dynamic typing matters here: the variable `message` in `emit`
starts as a `LogRecord` (returned by `build_msg`) and may be rebound to a
`str` by the mention-prefixing loop, after which attribute accesses like
`message.getMessage()` raise `AttributeError`.  We model such a value as
the sum type `Message` and model raisable expressions in the `Except
PyError` monad.  `json.dumps([trace])` serializes the single-element
attachment list; we keep the structured value `Option (List Trace)`
(serialization is injective and irrelevant to the properties considered).
-/

/-- Python `logging` severity constants, as used by the module's imports. -/
def CRITICAL : Nat := 50

/-- Python `logging.FATAL` (an alias of `CRITICAL`, value 50). -/
def FATAL : Nat := 50

/-- Python `logging.ERROR`. -/
def ERROR : Nat := 40

/-- Python `logging.WARNING`. -/
def WARNING : Nat := 30

/-- Python `logging.INFO`. -/
def INFO : Nat := 20

/-- Python `logging.DEBUG`. -/
def DEBUG : Nat := 10

/-- Python `logging.NOTSET`. -/
def NOTSET : Nat := 0

/-- Source: `ERROR_COLOR = 'danger'`. -/
def ERROR_COLOR : String := "danger"

/-- Source: `WARNING_COLOR = 'warning'`. -/
def WARNING_COLOR : String := "warning"

/-- Source: `INFO_COLOR = '#439FE0'`. -/
def INFO_COLOR : String := "#439FE0"

/-- Source: the `COLORS` dict literal.  `CRITICAL` and `FATAL` are the same
key (50), so the dict has six distinct keys; we keep the literal's entries
as an association list, looked up first-match (which agrees with the dict
since duplicate keys carry equal values). -/
def COLORS : List (Nat × String) :=
  [(CRITICAL, ERROR_COLOR), (FATAL, ERROR_COLOR), (ERROR, ERROR_COLOR),
   (WARNING, WARNING_COLOR), (INFO, INFO_COLOR), (DEBUG, INFO_COLOR),
   (NOTSET, INFO_COLOR)]

/-- Python `dict.get(key, default)` on an association list. -/
def dictGet (d : List (Nat × String)) (k : Nat) (dflt : String) : String :=
  match d.find? (fun p => p.1 == k) with
  | some p => p.2
  | none => dflt

/-- Source: `DEFAULT_EMOJI = ':heavy_exclamation_mark:'`. -/
def DEFAULT_EMOJI : String := ":heavy_exclamation_mark:"

/-- Model of a Python exception triple `exc_info = (etype, evalue, tb)`,
carrying the data `traceback.format_exception` renders from it: the
exception type name, its message, and the formatted stack-frame lines. -/
structure ExcInfo where
  etype : String
  evalue : String
  frames : List String
  deriving Repr, DecidableEq

/-- Model of `traceback.format_exception(*record.exc_info)`: a list of
lines beginning with the traceback header, then the frame lines, ending
with the `Type: value` line.  (Library function, modelled from Python's
documented behavior; always a non-empty list with a non-empty last line.) -/
def format_exception (ei : ExcInfo) : List String :=
  "Traceback (most recent call last):\n" ::
    (ei.frames ++ [ei.etype ++ ": " ++ ei.evalue ++ "\n"])

/-- Model of a `logging.LogRecord` as `emit` uses it: `record.getMessage()`
returns `msg` (the message with arguments merged), `record.levelno` is the
numeric severity and `record.exc_info` the optional exception triple. -/
structure LogRecord where
  msg : String
  levelno : Nat
  exc_info : Option ExcInfo
  deriving Repr, DecidableEq

/-- State of a constructed `SlackclientLogHandler`.  `level` is the
inherited `logging.Handler` level (set to `NOTSET` by `Handler.__init__`);
the remaining fields are the attributes `__init__` assigns.  The `client`
and `formatter` attributes carry no data relevant to the modelled
behavior (`build_msg` never invokes the formatter) and are elided. -/
structure HandlerState where
  level : Nat
  stack_trace : Bool
  fail_silent : Bool
  username : String
  icon_url : Option String
  icon_emoji : Option String
  channel : String
  ping_level : Option Nat
  ping_users : List String
  deriving Repr, DecidableEq

/-- Model of the Python errors `emit`/`__init__` can raise. -/
inductive PyError where
  | attributeError (msg : String)
  | typeError (msg : String)
  | slackClientError (msg : String)
  | runtimeError (msg : String)
  deriving Repr, DecidableEq

/-- Python `s.startswith(c)` for a single-character prefix `c`. -/
def startswith (s : String) (c : Char) : Bool :=
  match s.data with
  | [] => false
  | a :: _ => a == c

/-- Source lines 61-62: `if not self.channel.startswith('#') and not
self.channel.startswith('@'): self.channel = '#' + self.channel`. -/
def normalize_channel (channel : String) : String :=
  if !(startswith channel '#') && !(startswith channel '@') then
    "#" ++ channel
  else
    channel

/-- Python truthiness of an optional string (`None` and `''` are falsy). -/
def pyTruthyStr : Option String → Bool
  | none => false
  | some s => !(s == "")

/-- Python `s.lstrip('@')`: removes every leading `'@'` character. -/
def lstrip_at (s : String) : String :=
  String.mk (s.data.dropWhile (fun c => c == '@'))

/-- One entry of `client.users_list().data['members']`, restricted to the
fields the module reads. -/
structure SlackUser where
  name : String
  id : String
  deriving Repr, DecidableEq

/-- Source lines 73-75: the inner `for user in user_list` loop — the first
directory entry whose `name` equals the (already-stripped) requested name,
if any. -/
def find_user (pingName : String) (user_list : List SlackUser) : Option String :=
  (user_list.find? (fun u => u.name == pingName)).map (fun u => u.id)

/-- Source lines 70-78: the outer `for ping_user in ping_users` loop.  Each
requested name is stripped of leading `'@'` and matched against the
directory; the matched ids accumulate in order, and the first unmatched
name raises `RuntimeError`, so no handler is produced. -/
def resolve_ping_users (ping_users : List String) (user_list : List SlackUser) :
    Except PyError (List String) :=
  match ping_users with
  | [] => Except.ok []
  | p :: rest =>
    let stripped := lstrip_at p
    match find_user stripped user_list with
    | some uid =>
      (resolve_ping_users rest user_list).map (fun ids => uid :: ids)
    | none =>
      Except.error (PyError.runtimeError
        ("User not found in Slack users list: " ++ stripped))

/-- Constructor arguments of `SlackclientLogHandler.__init__` (the
`api_token` only feeds the elided `WebClient`).  Python defaults:
`username='Python logger'`, `icon_url=None`, `icon_emoji=None`,
`fail_silent=False`, `ping_users=None`, `ping_level=None`,
`stack_trace=True`. -/
structure InitArgs where
  channel : String
  username : String := "Python logger"
  icon_url : Option String := none
  icon_emoji : Option String := none
  fail_silent : Bool := false
  ping_users : Option (List String) := none
  ping_level : Option Nat := none
  stack_trace : Bool := true
  deriving Repr, DecidableEq

/-- Source lines 47-78, `SlackclientLogHandler.__init__`.  `user_list` is
the directory returned by `client.users_list().data['members']`, fetched
only when `ping_users` is truthy.  `Handler.__init__(self)` leaves the
handler's own `level` at `NOTSET`.  The icon rule is line 58:
`self.icon_emoji = icon_emoji if (icon_emoji or icon_url) else
DEFAULT_EMOJI`. -/
def init (a : InitArgs) (user_list : List SlackUser) :
    Except PyError HandlerState :=
  let icon_emoji :=
    if pyTruthyStr a.icon_emoji || pyTruthyStr a.icon_url then a.icon_emoji
    else some DEFAULT_EMOJI
  let channel := normalize_channel a.channel
  let requested := a.ping_users.getD []
  if requested.isEmpty then
    Except.ok
      { level := NOTSET, stack_trace := a.stack_trace,
        fail_silent := a.fail_silent, username := a.username,
        icon_url := a.icon_url, icon_emoji := icon_emoji, channel := channel,
        ping_level := a.ping_level, ping_users := [] }
  else
    (resolve_ping_users requested user_list).map (fun ids =>
      { level := NOTSET, stack_trace := a.stack_trace,
        fail_silent := a.fail_silent, username := a.username,
        icon_url := a.icon_url, icon_emoji := icon_emoji, channel := channel,
        ping_level := a.ping_level, ping_users := ids })

/-- The dynamically-typed local variable `message` in `emit`: it starts as
the `LogRecord` returned by `build_msg` and may be rebound to a `str` by
the mention loop. -/
inductive Message where
  | record (r : LogRecord)
  | str (s : String)
  deriving Repr, DecidableEq

/-- Python attribute access `message.getMessage()`: defined on a
`LogRecord`, raises `AttributeError` on a `str`. -/
def Message.getMessage : Message → Except PyError String
  | Message.record r => Except.ok r.msg
  | Message.str _ =>
    Except.error (PyError.attributeError
      "'str' object has no attribute 'getMessage'")

/-- Source lines 81-82: `build_msg` returns the record itself (it does not
run the formatter). -/
def build_msg (r : LogRecord) : Message :=
  Message.record r

/-- The attachment dict built by `build_trace`. -/
structure Trace where
  fallback : String
  color : String
  text : Option String
  deriving Repr, DecidableEq

/-- Source lines 85-94, `build_trace`.  Its `fallback` parameter receives
whatever `emit` passes (a `str` in every call site), and the body
evaluates `fallback.getMessage()` — an `AttributeError` on a `str`.  The
color is `COLORS.get(self.level, INFO_COLOR)`: keyed by the handler's own
level, not the record's.  `trace['text']` is set only when
`record.exc_info` is truthy. -/
def build_trace (h : HandlerState) (r : LogRecord) (fallback : Message) :
    Except PyError Trace :=
  match fallback.getMessage with
  | Except.error e => Except.error e
  | Except.ok fb =>
    let base : Trace :=
      { fallback := fb, color := dictGet COLORS h.level INFO_COLOR,
        text := none }
    Except.ok
      (match r.exc_info with
       | some ei =>
         { base with
             text := some (String.intercalate "\n" (format_exception ei)) }
       | none => base)

/-- Python `record.levelno >= self.ping_level`: an `int`/`None` comparison
raises `TypeError` when `ping_level` is `None`. -/
def pyGe (a : Nat) (b : Option Nat) : Except PyError Bool :=
  match b with
  | some l => Except.ok (decide (a ≥ l))
  | none =>
    Except.error (PyError.typeError
      "'>=' not supported between instances of 'int' and 'NoneType'")

/-- Source lines 100-101: the loop `for user in self.ping_users: message =
'<@%s> %s' % (user, message.getMessage())`, which rebinds `message` to a
`str` after its first iteration. -/
def ping_fold (users : List String) (message : Message) :
    Except PyError Message :=
  match users with
  | [] => Except.ok message
  | u :: rest =>
    match message.getMessage with
    | Except.error e => Except.error e
    | Except.ok m => ping_fold rest (Message.str ("<@" ++ u ++ "> " ++ m))

/-- The keyword arguments of the `client.chat_postMessage` call. -/
structure SendCall where
  text : String
  channel : String
  username : String
  icon_url : Option String
  icon_emoji : Option String
  attachments : Option (List Trace)
  deriving Repr, DecidableEq

/-- Source lines 97-101 of `emit`: `message = self.build_msg(record)`
followed by `if self.ping_users and record.levelno >= self.ping_level:`
and the mention loop.  Python `and` short-circuits, so the (possibly
raising) comparison is evaluated only when `self.ping_users` is truthy.
In `emit`, `sendErr` is the behavior of the mocked remote call: `none`
means `chat_postMessage` returns normally, `some e` means it raises
`errors.SlackClientError(e)`; the `try` block catches only
`SlackClientError`, so the `AttributeError`/`TypeError` paths propagate
regardless of `fail_silent`. -/
def emit_message (h : HandlerState) (r : LogRecord) : Except PyError Message :=
  if h.ping_users.isEmpty then Except.ok (build_msg r)
  else
    match pyGe r.levelno h.ping_level with
    | Except.error e => Except.error e
    | Except.ok true => ping_fold h.ping_users (build_msg r)
    | Except.ok false => Except.ok (build_msg r)

/-- Source lines 103-107: the `if self.stack_trace:` branch of `emit`.  The
call site is `self.build_trace(record, fallback=message.getMessage())`: the
argument expression `message.getMessage()` is evaluated first (and may
raise), and `build_trace` receives its `str` result as `fallback`.
`json.dumps([trace])` is kept as the structured one-element list. -/
def emit_attachments (h : HandlerState) (r : LogRecord) (message : Message) :
    Except PyError (Option (List Trace)) :=
  if h.stack_trace then
    match message.getMessage with
    | Except.error e => Except.error e
    | Except.ok fb =>
      match build_trace h r (Message.str fb) with
      | Except.error e => Except.error e
      | Except.ok trace => Except.ok (some [trace])
  else Except.ok none

/-- Source lines 96-122, `emit` proper: lines 97-101 via `emit_message`,
lines 103-107 via `emit_attachments`, then the `chat_postMessage` call
(whose `text=message.getMessage()` argument may itself raise) under the
`try`/`except errors.SlackClientError` policy. -/
def emit (h : HandlerState) (r : LogRecord) (sendErr : Option String) :
    Except PyError SendCall :=
  match emit_message h r with
  | Except.error e => Except.error e
  | Except.ok message =>
    match emit_attachments h r message with
    | Except.error e => Except.error e
    | Except.ok attachments =>
      match message.getMessage with
      | Except.error e => Except.error e
      | Except.ok text =>
        let call : SendCall :=
          { text := text, channel := h.channel, username := h.username,
            icon_url := h.icon_url, icon_emoji := h.icon_emoji,
            attachments := attachments }
        match sendErr with
        | none => Except.ok call
        | some e =>
          if h.fail_silent then Except.ok call
          else Except.error (PyError.slackClientError e)

/-- True exactly when the `Except` result is `ok`, i.e. the modelled
Python call returned normally. -/
def returnedNormally : Except PyError SendCall → Bool
  | Except.ok _ => true
  | Except.error _ => false

/-! ### Claim theorems -/

/-- C1: for a handler with resolved mention ids `["U1", "U2"]` and
`ping_level = WARNING`, the claim says a record at WARNING produces text
starting with `<@U1> <@U2> `; instead `emit` raises `AttributeError`,
because the mention loop rebinds `message` to a `str` on its first
iteration and then calls `message.getMessage()` on it.  A record below
WARNING does send unprefixed text (here with `stack_trace := false`, the
only configuration in which the send is reached at all). -/
theorem c1_ping_prefix_crashes :
    emit
        { level := NOTSET, stack_trace := false, fail_silent := false,
          username := "Python logger", icon_url := none,
          icon_emoji := some DEFAULT_EMOJI, channel := "#general",
          ping_level := some WARNING, ping_users := ["U1", "U2"] }
        { msg := "m", levelno := WARNING, exc_info := none } none
      = Except.error (PyError.attributeError
          "'str' object has no attribute 'getMessage'")
    ∧ emit
        { level := NOTSET, stack_trace := false, fail_silent := false,
          username := "Python logger", icon_url := none,
          icon_emoji := some DEFAULT_EMOJI, channel := "#general",
          ping_level := some WARNING, ping_users := ["U1", "U2"] }
        { msg := "m", levelno := INFO, exc_info := none } none
      = Except.ok
          { text := "m", channel := "#general", username := "Python logger",
            icon_url := none, icon_emoji := some DEFAULT_EMOJI,
            attachments := none } := by
  exact ⟨rfl, rfl⟩

/-- C2: the claim's attachment-presence rule versus the code.  With
`stack_trace := false` the send call indeed receives no attachments (first
conjunct).  But with `stack_trace := true` — with or without exception
info — `emit` raises `AttributeError` instead of delivering one
attachment: `build_trace` calls `fallback.getMessage()` on the `str` that
`emit` passed as `fallback`. -/
theorem c2_attachment_rule_vs_code :
    emit
        { level := NOTSET, stack_trace := false, fail_silent := false,
          username := "Python logger", icon_url := none,
          icon_emoji := some DEFAULT_EMOJI, channel := "#chan",
          ping_level := none, ping_users := [] }
        { msg := "payload", levelno := ERROR,
          exc_info := some { etype := "ValueError", evalue := "bad",
                             frames := ["  File f, line 1\n"] } } none
      = Except.ok
          { text := "payload", channel := "#chan",
            username := "Python logger", icon_url := none,
            icon_emoji := some DEFAULT_EMOJI, attachments := none }
    ∧ emit
        { level := NOTSET, stack_trace := true, fail_silent := false,
          username := "Python logger", icon_url := none,
          icon_emoji := some DEFAULT_EMOJI, channel := "#chan",
          ping_level := none, ping_users := [] }
        { msg := "payload", levelno := INFO, exc_info := none } none
      = Except.error (PyError.attributeError
          "'str' object has no attribute 'getMessage'")
    ∧ emit
        { level := NOTSET, stack_trace := true, fail_silent := false,
          username := "Python logger", icon_url := none,
          icon_emoji := some DEFAULT_EMOJI, channel := "#chan",
          ping_level := none, ping_users := [] }
        { msg := "payload", levelno := ERROR,
          exc_info := some { etype := "ValueError", evalue := "bad",
                             frames := ["  File f, line 1\n"] } } none
      = Except.error (PyError.attributeError
          "'str' object has no attribute 'getMessage'") := by
  exact ⟨rfl, rfl, rfl⟩

/-- C3: the color in `build_trace` is `COLORS.get(self.level, INFO_COLOR)`
— keyed by the handler's own level, not the record's severity.  For a
handler at the default level (`NOTSET`) and a record at `ERROR`, the code
computes `INFO_COLOR` where the claim's per-record lookup would give
`ERROR_COLOR`; the two differ.  (Here `build_trace` is fed a
record-valued `fallback` so that it gets past the `fallback.getMessage()`
crash and actually produces its dict.) -/
theorem c3_color_ignores_record_severity :
    build_trace
        { level := NOTSET, stack_trace := true, fail_silent := false,
          username := "Python logger", icon_url := none,
          icon_emoji := some DEFAULT_EMOJI, channel := "#chan",
          ping_level := none, ping_users := [] }
        { msg := "m", levelno := ERROR, exc_info := none }
        (Message.record { msg := "m", levelno := ERROR, exc_info := none })
      = Except.ok { fallback := "m", color := INFO_COLOR, text := none }
    ∧ dictGet COLORS ERROR INFO_COLOR = ERROR_COLOR
    ∧ INFO_COLOR ≠ ERROR_COLOR := by
  refine ⟨rfl, rfl, ?_⟩
  decide

/-- C6: for a record at ERROR level carrying exception info, the claim
says the frame text appears only inside the attachment's trace field.  In
the code, producing that attachment requires `stack_trace = true`, and on
that path `emit` always raises `AttributeError` inside `build_trace`
(`fallback.getMessage()` on a `str`), so no message and no attachment are
ever sent. -/
theorem c6_error_record_attachment_crashes :
    emit
        { level := NOTSET, stack_trace := true, fail_silent := false,
          username := "Python logger", icon_url := none,
          icon_emoji := some DEFAULT_EMOJI, channel := "#ops",
          ping_level := none, ping_users := [] }
        { msg := "division failed", levelno := ERROR,
          exc_info := some { etype := "ZeroDivisionError",
                             evalue := "division by zero",
                             frames := ["  File app, line 3\n"] } } none
      = Except.error (PyError.attributeError
          "'str' object has no attribute 'getMessage'") := by
  exact rfl

/-- Helper: if any requested name fails to match the directory, the whole
resolution fails (the first unmatched name raises). -/
theorem resolve_ping_users_error_of_unmatched (dir : List SlackUser)
    (p : String) (hp : find_user (lstrip_at p) dir = none) :
    ∀ ping : List String, p ∈ ping →
      ∃ e, resolve_ping_users ping dir = Except.error e := by
  intro ping
  induction ping with
  | nil => intro hmem; cases hmem
  | cons q rest ih =>
    intro hmem
    cases hfq : find_user (lstrip_at q) dir with
    | none =>
      refine ⟨PyError.runtimeError
        ("User not found in Slack users list: " ++ lstrip_at q), ?_⟩
      simp [resolve_ping_users, hfq]
    | some uid =>
      rcases List.mem_cons.mp hmem with hq | hmem'
      · rw [hq] at hp
        rw [hp] at hfq
        cases hfq
      · obtain ⟨e, he⟩ := ih hmem'
        exact ⟨e, by simp [resolve_ping_users, hfq, he, Except.map]⟩

/-- C4: mention resolution scans the directory in order, first match wins,
leading `@` stripped; with directory `[alice ↦ U1, bob ↦ U2]` and request
`["alice", "@bob"]` construction succeeds with ids `["U1", "U2"]` in that
order, while an unmatched request (`["carol"]`, and in general any request
containing an unmatched name) raises and produces no handler. -/
theorem c4_mention_resolution :
    init { channel := "general", ping_users := some ["alice", "@bob"] }
        [{ name := "alice", id := "U1" }, { name := "bob", id := "U2" }]
      = Except.ok
          { level := NOTSET, stack_trace := true, fail_silent := false,
            username := "Python logger", icon_url := none,
            icon_emoji := some DEFAULT_EMOJI, channel := "#general",
            ping_level := none, ping_users := ["U1", "U2"] }
    ∧ init { channel := "general", ping_users := some ["carol"] }
        [{ name := "alice", id := "U1" }, { name := "bob", id := "U2" }]
      = Except.error (PyError.runtimeError
          "User not found in Slack users list: carol")
    ∧ (∀ (dir : List SlackUser) (p : String) (ping : List String),
        find_user (lstrip_at p) dir = none → p ∈ ping →
          ∃ e, resolve_ping_users ping dir = Except.error e) := by
  refine ⟨rfl, rfl, ?_⟩
  intro dir p ping hp hmem
  exact resolve_ping_users_error_of_unmatched dir p hp ping hmem

/-- C4 witness: the universal no-match clause applied at a concrete
directory and request. -/
theorem c4_mention_resolution_witness :
    ∃ e, resolve_ping_users ["dave"] [{ name := "alice", id := "U1" }]
      = Except.error e :=
  c4_mention_resolution.2.2 [{ name := "alice", id := "U1" }] "dave"
    ["dave"] rfl (List.mem_singleton.mpr rfl)

/-- C9: with a non-empty resolved ping-user list and `ping_level` left at
its default `None`, every `emit` call evaluates `record.levelno >= None`
and raises `TypeError`, whatever the record's severity, the send mock's
behavior, or `fail_silent`. -/
theorem c9_ping_level_none_raises (h : HandlerState) (r : LogRecord)
    (sendErr : Option String) (hne : h.ping_users ≠ [])
    (hpl : h.ping_level = none) :
    emit h r sendErr = Except.error (PyError.typeError
      "'>=' not supported between instances of 'int' and 'NoneType'") := by
  have hie : h.ping_users.isEmpty = false := by
    simpa [List.isEmpty_iff] using hne
  simp [emit, emit_message, hie, pyGe, hpl]

/-- C9 witness: the theorem at a concrete handler and record, with
`fail_silent = true` and a below-threshold DEBUG record. -/
theorem c9_ping_level_none_raises_witness :
    emit
        { level := NOTSET, stack_trace := true, fail_silent := true,
          username := "Python logger", icon_url := none,
          icon_emoji := some DEFAULT_EMOJI, channel := "#general",
          ping_level := none, ping_users := ["U1"] }
        { msg := "m", levelno := DEBUG, exc_info := none } none
      = Except.error (PyError.typeError
          "'>=' not supported between instances of 'int' and 'NoneType'") :=
  c9_ping_level_none_raises
    { level := NOTSET, stack_trace := true, fail_silent := true,
      username := "Python logger", icon_url := none,
      icon_emoji := some DEFAULT_EMOJI, channel := "#general",
      ping_level := none, ping_users := ["U1"] }
    { msg := "m", levelno := DEBUG, exc_info := none } none
    (by decide) rfl

/-- Helper: when the mention condition does not fire (no ping users, or
the record is below the threshold), `emit_message` leaves the record
untouched. -/
theorem emit_message_no_ping (h : HandlerState) (r : LogRecord)
    (hping : h.ping_users = [] ∨
      ∃ l, h.ping_level = some l ∧ r.levelno < l) :
    emit_message h r = Except.ok (Message.record r) := by
  rcases hping with hpe | ⟨l, hl, hlt⟩
  · simp [emit_message, hpe, build_msg]
  · by_cases hie : h.ping_users.isEmpty
    · simp [emit_message, hie, build_msg]
    · have hge : decide (r.levelno ≥ l) = false :=
        decide_eq_false (Nat.not_le.mpr hlt)
      simp [emit_message, hie, pyGe, hl, hge, build_msg]

/-- C5: when the send call is reached (no mention prefix applied, no
attachment path — the configurations in which `emit` reaches it) and the
mocked remote call raises `SlackClientError`, `emit` returns normally
exactly when `fail_silent` is true and re-raises that very error exactly
when `fail_silent` is false. -/
theorem c5_fail_silent_policy (h : HandlerState) (r : LogRecord)
    (e : String) (hst : h.stack_trace = false)
    (hping : h.ping_users = [] ∨
      ∃ l, h.ping_level = some l ∧ r.levelno < l) :
    returnedNormally (emit h r (some e)) = h.fail_silent
    ∧ (h.fail_silent = false →
        emit h r (some e) = Except.error (PyError.slackClientError e)) := by
  have hmsg := emit_message_no_ping h r hping
  cases hfs : h.fail_silent <;>
    simp [emit, hmsg, emit_attachments, hst, Message.getMessage,
      returnedNormally, hfs]

/-- C5 witness: the policy at a concrete failing send, once with
`fail_silent = false` (error propagates) and once with
`fail_silent = true` (returns normally). -/
theorem c5_fail_silent_policy_witness :
    emit
        { level := NOTSET, stack_trace := false, fail_silent := false,
          username := "Python logger", icon_url := none,
          icon_emoji := some DEFAULT_EMOJI, channel := "#general",
          ping_level := none, ping_users := [] }
        { msg := "m", levelno := INFO, exc_info := none } (some "boom")
      = Except.error (PyError.slackClientError "boom")
    ∧ returnedNormally
        (emit
          { level := NOTSET, stack_trace := false, fail_silent := true,
            username := "Python logger", icon_url := none,
            icon_emoji := some DEFAULT_EMOJI, channel := "#general",
            ping_level := none, ping_users := [] }
          { msg := "m", levelno := INFO, exc_info := none } (some "boom"))
      = true :=
  ⟨(c5_fail_silent_policy
      { level := NOTSET, stack_trace := false, fail_silent := false,
        username := "Python logger", icon_url := none,
        icon_emoji := some DEFAULT_EMOJI, channel := "#general",
        ping_level := none, ping_users := [] }
      { msg := "m", levelno := INFO, exc_info := none } "boom" rfl
      (Or.inl rfl)).2 rfl,
   (c5_fail_silent_policy
      { level := NOTSET, stack_trace := false, fail_silent := true,
        username := "Python logger", icon_url := none,
        icon_emoji := some DEFAULT_EMOJI, channel := "#general",
        ping_level := none, ping_users := [] }
      { msg := "m", levelno := INFO, exc_info := none } "boom" rfl
      (Or.inl rfl)).1⟩

/-- Helper: prepending `"#"` makes `startswith · '#'` true. -/
theorem startswith_hash_append (s : String) :
    startswith ("#" ++ s) '#' = true := by
  cases s with
  | mk l => rfl

/-- C7: channel normalization — inputs already starting with `#` or `@`
are stored unchanged, any other input gets `#` prepended, and the
normalization is idempotent. -/
theorem c7_channel_normalization (s : String) :
    ((startswith s '#' = true ∨ startswith s '@' = true) →
      normalize_channel s = s)
    ∧ (startswith s '#' = false → startswith s '@' = false →
        normalize_channel s = "#" ++ s)
    ∧ normalize_channel (normalize_channel s) = normalize_channel s := by
  refine ⟨?_, ?_, ?_⟩
  · rintro (h1 | h2)
    · simp [normalize_channel, h1]
    · simp [normalize_channel, h2]
  · intro h1 h2
    simp [normalize_channel, h1, h2]
  · by_cases h1 : startswith s '#'
    · simp [normalize_channel, h1]
    · by_cases h2 : startswith s '@'
      · simp [normalize_channel, h1, h2]
      · simp [normalize_channel, h1, h2, startswith_hash_append]

/-- C7 witness: the three clauses at concrete channels. -/
theorem c7_channel_normalization_witness :
    normalize_channel "#chan" = "#chan"
    ∧ normalize_channel "@dm" = "@dm"
    ∧ normalize_channel "general" = "#" ++ "general"
    ∧ normalize_channel (normalize_channel "general")
        = normalize_channel "general" :=
  ⟨(c7_channel_normalization "#chan").1 (Or.inl rfl),
   (c7_channel_normalization "@dm").1 (Or.inr rfl),
   (c7_channel_normalization "general").2.1 rfl rfl,
   (c7_channel_normalization "general").2.2⟩

/-- C8: icon selection at construction.  Neither icon supplied: the stored
emoji is the fixed fallback and the url is unset.  Only a (non-empty) url:
the stored emoji is `none` — not the fallback — and the url passes
through.  A (non-empty) emoji, with or without a url, passes through
unchanged, as does the url. -/
theorem c8_icon_selection (url emoji : String) (hu : url ≠ "")
    (he : emoji ≠ "") :
    init { channel := "#c" } []
      = Except.ok
          { level := NOTSET, stack_trace := true, fail_silent := false,
            username := "Python logger", icon_url := none,
            icon_emoji := some DEFAULT_EMOJI, channel := "#c",
            ping_level := none, ping_users := [] }
    ∧ init { channel := "#c", icon_url := some url } []
      = Except.ok
          { level := NOTSET, stack_trace := true, fail_silent := false,
            username := "Python logger", icon_url := some url,
            icon_emoji := none, channel := "#c",
            ping_level := none, ping_users := [] }
    ∧ init { channel := "#c", icon_emoji := some emoji } []
      = Except.ok
          { level := NOTSET, stack_trace := true, fail_silent := false,
            username := "Python logger", icon_url := none,
            icon_emoji := some emoji, channel := "#c",
            ping_level := none, ping_users := [] }
    ∧ init { channel := "#c", icon_url := some url,
             icon_emoji := some emoji } []
      = Except.ok
          { level := NOTSET, stack_trace := true, fail_silent := false,
            username := "Python logger", icon_url := some url,
            icon_emoji := some emoji, channel := "#c",
            ping_level := none, ping_users := [] } := by
  refine ⟨rfl, ?_, ?_, ?_⟩ <;>
    simp [init, pyTruthyStr, normalize_channel, startswith, hu, he]

/-- C8 witness: the icon rule at concrete non-empty values. -/
theorem c8_icon_selection_witness :
    init { channel := "#c", icon_url := some "http://x" } []
      = Except.ok
          { level := NOTSET, stack_trace := true, fail_silent := false,
            username := "Python logger", icon_url := some "http://x",
            icon_emoji := none, channel := "#c",
            ping_level := none, ping_users := [] } :=
  (c8_icon_selection "http://x" ":smile:" (by decide) (by decide)).2.1

/-- Helper: `dropWhile` past a block of `'@'` characters. -/
theorem dropWhile_replicate_at (k : Nat) (l : List Char) :
    (List.replicate k '@' ++ l).dropWhile (fun c => c == '@')
      = l.dropWhile (fun c => c == '@') := by
  induction k with
  | zero => simp
  | succ n ih => simp [List.replicate_succ, List.dropWhile_cons, ih]

/-- C10: `lstrip('@')` removes every leading `'@'`, not just one: any
request of `k` leading `'@'`s followed by a name `s` (itself not starting
with `'@'`) resolves exactly as `s` does; in particular `"@@alice"`
matches the directory name `"alice"`. -/
theorem c10_lstrip_all_ats (k : Nat) (s : String)
    (hs : startswith s '@' = false) :
    lstrip_at (String.mk (List.replicate k '@' ++ s.data)) = s
    ∧ (∀ dir : List SlackUser,
        find_user (lstrip_at (String.mk (List.replicate k '@' ++ s.data))) dir
          = find_user s dir)
    ∧ resolve_ping_users ["@@alice"] [{ name := "alice", id := "U1" }]
      = Except.ok ["U1"] := by
  have hdrop : (s.data).dropWhile (fun c => c == '@') = s.data := by
    cases s with
    | mk l =>
      cases l with
      | nil => rfl
      | cons a t =>
        have ha : (a == '@') = false := hs
        simp [List.dropWhile_cons, ha]
  have hmain : lstrip_at (String.mk (List.replicate k '@' ++ s.data)) = s := by
    show String.mk
        ((List.replicate k '@' ++ s.data).dropWhile (fun c => c == '@')) = s
    rw [dropWhile_replicate_at, hdrop]
  exact ⟨hmain, fun dir => by rw [hmain], rfl⟩

/-- C10 witness: `"@@alice"` (two leading `'@'`s) stripped to `"alice"`. -/
theorem c10_lstrip_all_ats_witness :
    lstrip_at (String.mk (List.replicate 2 '@' ++ "alice".data)) = "alice"
    ∧ resolve_ping_users ["@@alice"] [{ name := "alice", id := "U1" }]
      = Except.ok ["U1"] :=
  ⟨(c10_lstrip_all_ats 2 "alice" rfl).1, (c10_lstrip_all_ats 2 "alice" rfl).2.2⟩
